import Mathlib

/-!
Shallow embedding of the bookcourier-server order/payment core.

The Mongo collections are modelled as Lean lists held in a `DB` record;
`findOne` is `List.find?` (first match, in insertion order), `updateOne`
updates the first matching document, `deleteOne` removes the first matching
document, `deleteMany` filters, and `insertOne` appends a document carrying
the fresh id `DB.nextId`.  Request bodies are records of `Option` fields
(`none` = the field is absent from the JSON body); JavaScript truthiness of
a present field is modelled per type (empty string and the number 0 are
falsy).  Monetary amounts and ratings arrive as already-parsed rationals,
so the `isNaN` guards of the source are vacuous here.  ObjectId-format
validation (`ObjectId.isValid`) is also vacuous: ids are modelled as `Nat`.
Response payloads (the `data` field of the envelope) are not modelled; each
operation returns the `(statusCode, message)` envelope plus the new `DB`.
-/

namespace BookCourier

/-- Order status enum of the source (`pending/shipped/delivered/cancelled`).
All writes of `orderStatus` in the source are literals from this vocabulary
or request values validated against it, so an inductive type is faithful. -/
inductive OrderStatus where
  | pending
  | shipped
  | delivered
  | cancelled
deriving DecidableEq, Repr

/-- Payment status enum of the source (`unpaid/paid`). -/
inductive PaymentStatus where
  | unpaid
  | paid
deriving DecidableEq, Repr

def OrderStatus.str : OrderStatus → String
  | .pending => "pending"
  | .shipped => "shipped"
  | .delivered => "delivered"
  | .cancelled => "cancelled"

/-- Book document. `status` stays a free string because the source mixes two
status vocabularies (`available/unavailable/out-of-stock` at creation,
`published/unpublished` at update/listing). -/
structure Book where
  id : Nat
  name : String
  author : String
  image : String
  price : Rat
  status : String
  category : String
  description : String
  librarian : Nat
deriving DecidableEq, Repr

/-- Order document as built by `placeOrder`. -/
structure Order where
  id : Nat
  user : Nat
  book : Nat
  librarian : Nat
  userName : String
  userEmail : String
  phoneNumber : String
  address : String
  orderStatus : OrderStatus
  paymentStatus : PaymentStatus
  totalAmount : Rat
deriving DecidableEq, Repr

/-- Payment document as built by `createPayment`. -/
structure Payment where
  id : Nat
  user : Nat
  order : Nat
  paymentId : String
  amount : Rat
  paymentMethod : String
  transactionId : Option String
deriving DecidableEq, Repr

/-- Wishlist document (only the book reference matters for the claims). -/
structure WishItem where
  id : Nat
  user : Nat
  book : Nat
deriving DecidableEq, Repr

/-- Review document as built by `addReview`; the stored rating is the
`parseInt` result, hence an integer. -/
structure Review where
  id : Nat
  user : Nat
  book : Nat
  order : Nat
  rating : Int
  comment : String
deriving DecidableEq, Repr

/-- The document store: one list per collection, plus the next fresh id. -/
structure DB where
  books : List Book
  orders : List Order
  payments : List Payment
  wishlists : List WishItem
  reviews : List Review
  nextId : Nat
deriving DecidableEq, Repr

/-- The authenticated principal attached to the request (`req.user`). -/
structure ReqUser where
  id : Nat
  role : String
deriving DecidableEq, Repr

/-- Response envelope: HTTP status code and message of either
`successResponse` or `errorResponse`. -/
inductive Res where
  | ok (code : Nat) (msg : String)
  | err (code : Nat) (msg : String)
deriving DecidableEq, Repr

def Res.isOk : Res → Bool
  | .ok _ _ => true
  | .err _ _ => false

/-- JS truthiness of an optional string body field: absent or empty is falsy. -/
def truthyS : Option String → Bool
  | none => false
  | some s => s != ""

/-- JS truthiness of an optional numeric body field: absent or 0 is falsy. -/
def truthyQ : Option Rat → Bool
  | none => false
  | some q => q != 0

/-- JS truthiness of an optional id field; a present ObjectId string is a
nonempty string, hence truthy. -/
def truthyId : Option Nat → Bool
  | none => false
  | some _ => true

/-- ASCII whitespace as matched by the `\s` of the email regex and by
`String.prototype.trim` (the further Unicode space code points of JS are out
of model scope). -/
def isWsChar (c : Char) : Bool :=
  c = ' ' || c = '\t' || c = '\n' || c = '\r'

/-- `String.prototype.trim`: strip leading and trailing whitespace.
(Reimplemented over the character list so that proofs can evaluate it.) -/
def jsTrim (s : String) : String :=
  ⟨((s.data.dropWhile isWsChar).reverse.dropWhile isWsChar).reverse⟩

def asciiLower (c : Char) : Char :=
  if 65 ≤ c.toNat ∧ c.toNat ≤ 90 then Char.ofNat (c.toNat + 32) else c

/-- `String.prototype.toLowerCase` on ASCII. -/
def jsToLower (s : String) : String :=
  ⟨s.data.map asciiLower⟩

/-- The stored `transactionId`: `transactionId ? transactionId.trim() : null`. -/
def jsOptTrim : Option String → Option String
  | some t => if t ≠ "" then some (jsTrim t) else none
  | none => none

/-- The stored review comment: `comment ? comment.trim() : ""`. -/
def jsCommentOf : Option String → String
  | some c => if c ≠ "" then jsTrim c else ""
  | none => ""

/-- Split a character list at every occurrence of `sep`
(same semantics as splitting a string on one character). -/
def splitOnChar (sep : Char) : List Char → List (List Char)
  | [] => [[]]
  | c :: cs =>
    let rest := splitOnChar sep cs
    if c = sep then [] :: rest
    else
      match rest with
      | [] => [[c]]
      | r :: rs => (c :: r) :: rs

/-- Mongo `updateOne`: rewrite the first document matching `p`. -/
def updateFirstBy (p : α → Bool) (f : α → α) : List α → List α
  | [] => []
  | x :: xs => if p x then f x :: xs else x :: updateFirstBy p f xs

/-- Mongo `deleteOne`: remove the first document matching `p`. -/
def deleteFirstBy (p : α → Bool) : List α → List α
  | [] => []
  | x :: xs => if p x then xs else x :: deleteFirstBy p xs

/-- The regex `^[^\s@]+@[^\s@]+\.[^\s@]+$` used on `userEmail`: exactly one
at-sign, no whitespace, nonempty local part, and the domain part contains a
dot that is neither its first nor its last character. -/
def emailOk (s : String) : Bool :=
  match splitOnChar '@' s.data with
  | [a, b] =>
      !a.isEmpty && (a.all fun c => !isWsChar c) && (b.all fun c => !isWsChar c) &&
        ((b.drop 1).dropLast.contains '.')
  | _ => false

/-- Body of `POST /api/orders`. -/
structure PlaceOrderBody where
  userName : Option String
  userEmail : Option String
  phoneNumber : Option String
  address : Option String
  bookId : Option Nat
deriving DecidableEq, Repr

/-- The `missingFields` computation of `placeOrder` (falsy fields, in the
order of `requiredFields`). -/
def placeOrderMissing (b : PlaceOrderBody) : List String :=
  (if truthyS b.userName then [] else [("userName")]) ++
    (if truthyS b.userEmail then [] else [("userEmail")]) ++
    (if truthyS b.phoneNumber then [] else [("phoneNumber")]) ++
    (if truthyS b.address then [] else [("address")]) ++
    (if truthyId b.bookId then [] else [("bookId")])

/-- `placeOrder` of the order controller: validation chain, then the order
document is inserted with status `pending`, payment status `unpaid`,
`totalAmount` copied from the book's current price and `librarian` copied
from the book's current owner. -/
def placeOrder (db : DB) (u : ReqUser) (b : PlaceOrderBody) : Res × DB :=
  if placeOrderMissing b ≠ [] then
    (.err 400 ("Missing required fields: " ++
      String.intercalate (", ") (placeOrderMissing b)), db)
  else if ¬ emailOk (b.userEmail.getD "") then
    (.err 400 ("Invalid email format"), db)
  else if (b.phoneNumber.getD "").length < 10 then
    (.err 400 ("Phone number must be at least 10 digits"), db)
  else
    match db.books.find? (fun bk => bk.id == b.bookId.getD 0) with
    | none => (.err 404 ("Book not found"), db)
    | some book =>
      if book.status ≠ "published" then
        (.err 400 ("This book is not available for order. Only published books can be ordered."), db)
      else
        let orderDocument : Order :=
          { id := db.nextId
            user := u.id
            book := b.bookId.getD 0
            librarian := book.librarian
            userName := jsTrim (b.userName.getD "")
            userEmail := jsToLower (jsTrim (b.userEmail.getD ""))
            phoneNumber := jsTrim (b.phoneNumber.getD "")
            address := jsTrim (b.address.getD "")
            orderStatus := .pending
            paymentStatus := .unpaid
            totalAmount := book.price }
        (.ok 201 ("Order placed successfully"),
          { db with orders := db.orders ++ [orderDocument], nextId := db.nextId + 1 })

/-- `cancelOrder`: owner-only, only from `pending`, sets `cancelled`.
(The `matchedCount === 0` re-check after `updateOne` cannot fire here: the
order was just found in the same sequential run.) -/
def cancelOrder (db : DB) (u : ReqUser) (oid : Nat) : Res × DB :=
  match db.orders.find? (fun o => o.id == oid) with
  | none => (.err 404 ("Order not found"), db)
  | some order =>
    if order.user ≠ u.id then
      (.err 403 ("You can only cancel your own orders"), db)
    else if order.orderStatus ≠ .pending then
      (.err 400 ("Cannot cancel order with status '" ++ order.orderStatus.str ++
        "'. Only pending orders can be cancelled."), db)
    else
      (.ok 200 ("Order cancelled successfully"),
        { db with
          orders := updateFirstBy (fun o => o.id == oid)
            (fun o => { o with orderStatus := .cancelled }) db.orders })

/-- The `validStatuses` list of `updateOrderStatus`, as a parser. -/
def parseOrderStatus (s : String) : Option OrderStatus :=
  if s = "pending" then some .pending
  else if s = "shipped" then some .shipped
  else if s = "delivered" then some .delivered
  else if s = "cancelled" then some .cancelled
  else none

/-- The `validTransitions` table of `updateOrderStatus`. -/
def validTransitions : OrderStatus → List OrderStatus
  | .pending => [.shipped, .cancelled]
  | .shipped => [.delivered]
  | .delivered => []
  | .cancelled => []

/-- The interpolated `Invalid status transition` message. -/
def invalidTransitionMsg (cur ns : OrderStatus) : String :=
  let allowed := String.intercalate (", ") ((validTransitions cur).map OrderStatus.str)
  "Invalid status transition. Cannot change from '" ++ cur.str ++ "' to '" ++
    ns.str ++ "'. Valid transitions: " ++ (if allowed = "" then "none" else allowed)

/-- `updateOrderStatus`: owning librarian or admin; the requested status is
validated against the enum, then against the transition table. -/
def updateOrderStatus (db : DB) (u : ReqUser) (oid : Nat) (status : Option String) :
    Res × DB :=
  if ¬ truthyS status then (.err 400 ("Status is required"), db)
  else
    match parseOrderStatus (status.getD "") with
    | none =>
      (.err 400 ("Invalid status. Must be one of: pending, shipped, delivered, cancelled"), db)
    | some newStatus =>
      match db.orders.find? (fun o => o.id == oid) with
      | none => (.err 404 ("Order not found"), db)
      | some order =>
        if order.librarian ≠ u.id ∧ u.role ≠ "admin" then
          (.err 403 ("You can only update orders for your own books"), db)
        else if newStatus ∉ validTransitions order.orderStatus then
          (.err 400 (invalidTransitionMsg order.orderStatus newStatus), db)
        else
          (.ok 200 ("Order status updated to '" ++ newStatus.str ++ "' successfully"),
            { db with
              orders := updateFirstBy (fun o => o.id == oid)
                (fun o => { o with orderStatus := newStatus }) db.orders })

/-- `updatePaymentStatus` (the buyer's mark-paid action): owner-only,
rejected if already paid, otherwise sets `paid`. -/
def updatePaymentStatus (db : DB) (u : ReqUser) (oid : Nat) : Res × DB :=
  match db.orders.find? (fun o => o.id == oid) with
  | none => (.err 404 ("Order not found"), db)
  | some order =>
    if order.user ≠ u.id then
      (.err 403 ("You can only update payment for your own orders"), db)
    else if order.paymentStatus = .paid then
      (.err 400 ("Payment has already been completed for this order"), db)
    else
      (.ok 200 ("Payment status updated successfully"),
        { db with
          orders := updateFirstBy (fun o => o.id == oid)
            (fun o => { o with paymentStatus := .paid }) db.orders })

/-- Decimal-free rendering of a rational for interpolated messages (the JS
source prints the IEEE number; the exact digits are not load-bearing). -/
def ratStr (q : Rat) : String :=
  toString q.num ++ (if q.den = 1 then "" else "/" ++ toString q.den)

/-- Body of `POST /api/payments`. -/
structure PaymentBody where
  orderId : Option Nat
  paymentId : Option String
  amount : Option Rat
  paymentMethod : Option String
  transactionId : Option String
deriving DecidableEq, Repr

/-- The `missingFields` computation of `createPayment`
(`transactionId` is not required). -/
def paymentMissing (b : PaymentBody) : List String :=
  (if truthyId b.orderId then [] else [("orderId")]) ++
    (if truthyS b.paymentId then [] else [("paymentId")]) ++
    (if truthyQ b.amount then [] else [("amount")]) ++
    (if truthyS b.paymentMethod then [] else [("paymentMethod")])

/-- The payment document built by `createPayment` before insertion: the
duplicate check ran on the raw `paymentId` body value, but the stored
document carries the trimmed value. -/
def paymentDocOf (db : DB) (u : ReqUser) (b : PaymentBody) : Payment :=
  { id := db.nextId
    user := u.id
    order := b.orderId.getD 0
    paymentId := jsTrim (b.paymentId.getD "")
    amount := b.amount.getD 0
    paymentMethod := jsTrim (b.paymentMethod.getD "")
    transactionId := jsOptTrim b.transactionId }

/-- `createPayment` of the payment controller, with the content of the
orders collection at the time of the `updateOne` step passed explicitly as
`ordersAtUpdate`.  In an interference-free sequential run this is
`db.orders` (see `createPayment`); a concurrent writer (for example the
book-delete cascade) may have removed the order in between, in which case
the `updateOne` matches nothing and the freshly inserted payment is deleted
again (the compensating delete of the source).  The store enforces a unique
index on the stored `paymentId` (`createIndexes` of the db helpers, run at
server start-up before any request): when the raw-value duplicate check
misses but the trimmed value to be stored collides with an existing
document, the `insertOne` itself throws a duplicate-key error, nothing is
persisted, and the controller's catch answers 500. -/
def createPaymentW (db : DB) (u : ReqUser) (b : PaymentBody)
    (ordersAtUpdate : List Order) : Res × DB :=
  if paymentMissing b ≠ [] then
    (.err 400 ("Missing required fields: " ++
      String.intercalate (", ") (paymentMissing b)), db)
  else if b.amount.getD 0 ≤ 0 then
    (.err 400 ("Amount must be a valid positive number"), db)
  else
    match db.orders.find? (fun o => o.id == b.orderId.getD 0) with
    | none => (.err 404 ("Order not found"), db)
    | some order =>
      if order.user ≠ u.id then
        (.err 403 ("You can only create payment for your own orders"), db)
      else if order.paymentStatus = .paid then
        (.err 400 ("Payment has already been completed for this order"), db)
      else if b.amount.getD 0 ≠ order.totalAmount then
        (.err 400 ("Payment amount (" ++ ratStr (b.amount.getD 0) ++
          ") does not match order total (" ++ ratStr order.totalAmount ++ ")"), db)
      else
        -- findOne({ paymentId }) uses the RAW body value …
        match db.payments.find? (fun p => p.paymentId == b.paymentId.getD "") with
        | some _ =>
          (.err 400 ("Payment ID already exists. Duplicate payment detected."), db)
        | none =>
          if db.payments.any (fun p => p.paymentId == jsTrim (b.paymentId.getD "")) then
            -- unique index paymentId_unique: the insert throws E11000,
            -- nothing is persisted, and the catch answers 500.
            (.err 500 ("Failed to create payment"), db)
          else if ordersAtUpdate.any (fun o => o.id == b.orderId.getD 0) then
            (.ok 201 ("Payment created successfully"),
              { db with
                payments := db.payments ++ [paymentDocOf db u b]
                orders := updateFirstBy (fun o => o.id == b.orderId.getD 0)
                  (fun o => { o with paymentStatus := .paid }) ordersAtUpdate
                nextId := db.nextId + 1 })
          else
            (.err 500 ("Failed to update order payment status"),
              { db with
                payments := deleteFirstBy (fun p => p.id == (paymentDocOf db u b).id)
                  (db.payments ++ [paymentDocOf db u b])
                orders := ordersAtUpdate
                nextId := db.nextId + 1 })

/-- `createPayment` in a sequential, interference-free run. -/
def createPayment (db : DB) (u : ReqUser) (b : PaymentBody) : Res × DB :=
  createPaymentW db u b db.orders

/-- `parseInt` applied to an already-numeric rating: truncation toward zero
(decimal rendering of a rational re-parsed up to its integer prefix; the
exponential rendering of magnitudes at or beyond 1e21 is out of model scope). -/
def jsParseInt (q : Rat) : Int :=
  if 0 ≤ q then q.floor else -((-q).floor)

/-- Body of `POST /api/reviews`. -/
structure ReviewBody where
  bookId : Option Nat
  rating : Option Rat
  comment : Option String
deriving DecidableEq, Repr

/-- `addReview` of the review controller: requires a delivered order of the
requesting user for the book; upserts the (user, book) review.  The rating
guard is `parseInt` followed by a 1..5 range check (for numeric ratings the
`isNaN` arm is unreachable: `parseInt` of a decimal rendering never yields
NaN). -/
def addReview (db : DB) (u : ReqUser) (b : ReviewBody) : Res × DB :=
  if ¬ truthyId b.bookId ∨ ¬ truthyQ b.rating then
    (.err 400 ("Book ID and rating are required"), db)
  else if jsParseInt (b.rating.getD 0) < 1 ∨ jsParseInt (b.rating.getD 0) > 5 then
    (.err 400 ("Rating must be a number between 1 and 5"), db)
  else
    match db.orders.find? (fun o =>
        o.user == u.id && o.book == b.bookId.getD 0 && o.orderStatus == .delivered) with
    | none =>
      (.err 403 ("You must order and receive this book before reviewing it. Only delivered orders can be reviewed."), db)
    | some order =>
      match db.reviews.find? (fun r => r.user == u.id && r.book == b.bookId.getD 0) with
      | some _ =>
        (.ok 200 ("Review updated successfully"),
          { db with
            reviews := updateFirstBy (fun r => r.user == u.id && r.book == b.bookId.getD 0)
              (fun r => { r with
                rating := jsParseInt (b.rating.getD 0)
                comment := jsCommentOf b.comment }) db.reviews })
      | none =>
        (.ok 201 ("Review added successfully"),
          { db with
            reviews := db.reviews ++
              [{ id := db.nextId
                 user := u.id
                 book := b.bookId.getD 0
                 order := order.id
                 rating := jsParseInt (b.rating.getD 0)
                 comment := jsCommentOf b.comment }]
            nextId := db.nextId + 1 })

/-- `deleteBook` of the book controller (admin-only by route middleware):
delete the book, then cascade-delete every order, wishlist entry and review
referencing it. -/
def deleteBook (db : DB) (bid : Nat) : Res × DB :=
  match db.books.find? (fun bk => bk.id == bid) with
  | none => (.err 404 ("Book not found"), db)
  | some _ =>
    (.ok 200 ("Book and all related data deleted successfully"),
      { db with
        books := deleteFirstBy (fun bk => bk.id == bid) db.books
        orders := db.orders.filter (fun o => o.book != bid)
        wishlists := db.wishlists.filter (fun w => w.book != bid)
        reviews := db.reviews.filter (fun r => r.book != bid) })

/-- Body of `PUT /api/books/:id` (all fields optional). -/
structure BookUpdateBody where
  name : Option String
  author : Option String
  image : Option String
  price : Option Rat
  status : Option String
  category : Option String
  description : Option String
deriving DecidableEq, Repr

/-- The `validStatuses` list of `updateBook` (this looser vocabulary is the
inconsistency flagged by the specification). -/
def validBookStatuses : List String :=
  [("available"), ("unavailable"), ("out-of-stock"), ("published"), ("unpublished")]

/-- `updateBook` of the book controller: ownership gate, field-wise partial
update.  All validation happens before the single `updateOne`; only the
books collection is ever written. -/
def updateBook (db : DB) (u : ReqUser) (bid : Nat) (b : BookUpdateBody) : Res × DB :=
  match db.books.find? (fun bk => bk.id == bid) with
  | none => (.err 404 ("Book not found"), db)
  | some book =>
    if book.librarian ≠ u.id ∧ u.role ≠ "admin" then
      (.err 403 ("You can only update your own books"), db)
    else if b.price.any (fun p => decide (p < 0)) then
      (.err 400 ("Price must be a valid positive number"), db)
    else if b.status.any (fun s => s != "" && !(validBookStatuses.contains s)) then
      (.err 400 ("Invalid status. Must be one of: " ++
        String.intercalate (", ") validBookStatuses), db)
    else
      let upd : Book → Book := fun bk =>
        let bk := match b.name with
          | some s => if s ≠ "" then { bk with name := jsTrim s } else bk
          | none => bk
        let bk := match b.author with
          | some s => if s ≠ "" then { bk with author := jsTrim s } else bk
          | none => bk
        let bk := match b.image with
          | some s => if s ≠ "" then { bk with image := jsTrim s } else bk
          | none => bk
        let bk := match b.price with
          | some p => { bk with price := p }
          | none => bk
        let bk := match b.status with
          | some s => if s ≠ "" then { bk with status := s } else bk
          | none => bk
        let bk := match b.category with
          | some s => if s ≠ "" then { bk with category := jsTrim s } else bk
          | none => bk
        match b.description with
        | some s => { bk with description := jsTrim s }
        | none => bk
      (.ok 200 ("Book updated successfully"),
        { db with books := updateFirstBy (fun bk => bk.id == bid) upd db.books })

/-! Concrete fixtures used by witnesses and counterexamples. -/

def wBuyer : ReqUser := { id := 7, role := "user" }

def wLibrarian : ReqUser := { id := 3, role := "librarian" }

def wBook : Book :=
  { id := 5
    name := "Verity"
    author := "CH"
    image := "img"
    price := mkRat 1299 100
    status := "published"
    category := "thriller"
    description := ""
    librarian := 3 }

def wBookDraft : Book := { wBook with id := 6, status := "unpublished" }

def wOrder : Order :=
  { id := 1
    user := 7
    book := 5
    librarian := 3
    userName := "Ann"
    userEmail := "a@b.c"
    phoneNumber := "0123456789"
    address := "addr"
    orderStatus := .pending
    paymentStatus := .unpaid
    totalAmount := 10 }

def wOrder2 : Order := { wOrder with id := 2 }

def wOrderDelivered : Order := { wOrder with orderStatus := .delivered }

def wOrderPaid : Order := { wOrder with paymentStatus := .paid }

def wDB (os : List Order) : DB :=
  { books := []
    orders := os
    payments := []
    wishlists := []
    reviews := []
    nextId := 100 }

def wDBb (bs : List Book) (os : List Order) : DB := { wDB os with books := bs }

def wPayBody (oid : Nat) (pid : String) (amt : Rat) : PaymentBody :=
  { orderId := some oid
    paymentId := some pid
    amount := some amt
    paymentMethod := some "card"
    transactionId := none }

def wReviewBody (q : Rat) : ReviewBody :=
  { bookId := some 5, rating := some q, comment := none }

def wOtherBuyer : ReqUser := { id := 8, role := "user" }

def wPayment : Payment :=
  { id := 90
    user := 7
    order := 2
    paymentId := "TX1"
    amount := 10
    paymentMethod := "card"
    transactionId := none }

def wDBp : DB := { wDB [wOrder] with payments := [wPayment] }

def wPlaceBody : PlaceOrderBody :=
  { userName := some ("Ann")
    userEmail := some ("a@b.c")
    phoneNumber := some ("0123456789")
    address := some ("addr")
    bookId := some 5 }

def wPlaceBodyDraft : PlaceOrderBody := { wPlaceBody with bookId := some 6 }

def wPriceBody : BookUpdateBody :=
  { name := none
    author := none
    image := none
    price := some 20
    status := none
    category := none
    description := none }

def wReview : Review :=
  { id := 50, user := 7, book := 5, order := 1, rating := 3, comment := "old" }

def wWish : WishItem := { id := 60, user := 7, book := 5 }

def wDBr : DB := { wDB [wOrderDelivered] with reviews := [wReview] }

def wDBc : DB :=
  { books := [wBook]
    orders := [wOrder]
    payments := []
    wishlists := [wWish]
    reviews := [wReview]
    nextId := 100 }

/-! List-level lemmas about the Mongo primitives. -/

theorem mem_updateFirstBy {α : Type} {p : α → Bool} {f : α → α} {l : List α} {y : α}
    (hy : y ∈ updateFirstBy p f l) :
    y ∈ l ∨ ∃ x, l.find? p = some x ∧ y = f x := by
  induction l with
  | nil => simp [updateFirstBy] at hy
  | cons a l ih =>
    by_cases h : p a = true
    · rw [updateFirstBy, if_pos h] at hy
      rcases List.mem_cons.mp hy with h1 | h1
      · exact Or.inr ⟨a, by rw [List.find?_cons_of_pos _ h], h1⟩
      · exact Or.inl (List.mem_cons_of_mem _ h1)
    · rw [updateFirstBy, if_neg h] at hy
      rcases List.mem_cons.mp hy with h1 | h1
      · exact Or.inl (h1 ▸ List.mem_cons_self _ _)
      · rcases ih h1 with h2 | ⟨x, hx, hy'⟩
        · exact Or.inl (List.mem_cons_of_mem _ h2)
        · exact Or.inr ⟨x, by rw [List.find?_cons_of_neg _ h, hx], hy'⟩

theorem find?_updateFirstBy_mem {α : Type} {p : α → Bool} {f : α → α} {l : List α} {x : α}
    (hx : l.find? p = some x) : f x ∈ updateFirstBy p f l := by
  induction l with
  | nil => simp [List.find?] at hx
  | cons a l ih =>
    by_cases h : p a = true
    · rw [List.find?_cons_of_pos _ h] at hx
      injection hx with hx
      subst hx
      simp [updateFirstBy, h]
    · rw [List.find?_cons_of_neg _ h] at hx
      simp only [updateFirstBy, if_neg h]
      exact List.mem_cons_of_mem _ (ih hx)

theorem length_updateFirstBy {α : Type} (p : α → Bool) (f : α → α) (l : List α) :
    (updateFirstBy p f l).length = l.length := by
  induction l with
  | nil => rfl
  | cons a l ih => by_cases h : p a = true <;> simp [updateFirstBy, h, ih]

theorem map_updateFirstBy {α β : Type} (k : α → β) (p : α → Bool) (f : α → α)
    (l : List α) (hk : ∀ x, k (f x) = k x) :
    (updateFirstBy p f l).map k = l.map k := by
  induction l with
  | nil => rfl
  | cons a l ih => by_cases h : p a = true <;> simp [updateFirstBy, h, ih, hk]

theorem deleteFirstBy_append_singleton {α : Type} {p : α → Bool} {l : List α} {a : α}
    (ha : p a = true) (hl : ∀ x ∈ l, p x = false) :
    deleteFirstBy p (l ++ [a]) = l := by
  induction l with
  | nil => simp [deleteFirstBy, ha]
  | cons b l ih =>
    have hb := hl b (List.mem_cons_self b l)
    simp only [List.cons_append, deleteFirstBy, hb]
    simp only [Bool.false_eq_true, if_false, List.cons.injEq, true_and]
    exact ih fun x hx => hl x (List.mem_cons_of_mem _ hx)

/-! Branch analysis of the order-status operations. -/

theorem updateOrderStatus_orders_cases (db : DB) (u : ReqUser) (oid : Nat)
    (st : Option String) :
    (updateOrderStatus db u oid st).2.orders = db.orders ∨
      ∃ order ns, db.orders.find? (fun o => o.id == oid) = some order ∧
        ns ∈ validTransitions order.orderStatus ∧
        (updateOrderStatus db u oid st).2.orders =
          updateFirstBy (fun o => o.id == oid)
            (fun o => { o with orderStatus := ns }) db.orders := by
  unfold updateOrderStatus
  split
  · exact Or.inl rfl
  · split
    · exact Or.inl rfl
    · next ns hns =>
      split
      · exact Or.inl rfl
      · next order hord =>
        split
        · exact Or.inl rfl
        · split
          · exact Or.inl rfl
          · next hval => exact Or.inr ⟨order, ns, hord, not_not.mp hval, rfl⟩

theorem cancelOrder_orders_cases (db : DB) (u : ReqUser) (oid : Nat) :
    (cancelOrder db u oid).2.orders = db.orders ∨
      ∃ order, db.orders.find? (fun o => o.id == oid) = some order ∧
        order.orderStatus = .pending ∧
        (cancelOrder db u oid).2.orders =
          updateFirstBy (fun o => o.id == oid)
            (fun o => { o with orderStatus := .cancelled }) db.orders := by
  unfold cancelOrder
  split
  · exact Or.inl rfl
  · next order hord =>
    split
    · exact Or.inl rfl
    · split
      · exact Or.inl rfl
      · next hpend => exact Or.inr ⟨order, hord, not_not.mp hpend, rfl⟩

theorem updateOrderStatus_invalid (db : DB) (u : ReqUser) (oid : Nat)
    (st : Option String) (ns : OrderStatus) (order : Order)
    (h1 : truthyS st = true)
    (h2 : parseOrderStatus (st.getD "") = some ns)
    (h3 : db.orders.find? (fun o => o.id == oid) = some order)
    (h4 : order.librarian = u.id ∨ u.role = "admin")
    (h5 : ns ∉ validTransitions order.orderStatus) :
    updateOrderStatus db u oid st =
      (.err 400 (invalidTransitionMsg order.orderStatus ns), db) := by
  have h4' : ¬(order.librarian ≠ u.id ∧ u.role ≠ "admin") := by
    rcases h4 with h | h
    · exact fun hc => hc.1 h
    · exact fun hc => hc.2 h
  unfold updateOrderStatus
  rw [h2, h3]
  simp [h1, h4', h5]

theorem cancelOrder_nonpending (db : DB) (u : ReqUser) (oid : Nat) (order : Order)
    (h1 : db.orders.find? (fun o => o.id == oid) = some order)
    (h2 : order.user = u.id)
    (h3 : order.orderStatus ≠ .pending) :
    cancelOrder db u oid =
      (.err 400 ("Cannot cancel order with status '" ++ order.orderStatus.str ++
        "'. Only pending orders can be cancelled."), db) := by
  unfold cancelOrder
  rw [h1]
  simp [h2, h3]

theorem updateOrderStatus_safety {db : DB} {u : ReqUser} {oid : Nat}
    {st : Option String} {o' : Order}
    (h : o' ∈ (updateOrderStatus db u oid st).2.orders) :
    ∃ o, o ∈ db.orders ∧ o.id = o'.id ∧
      (o'.orderStatus = o.orderStatus ∨ o'.orderStatus ∈ validTransitions o.orderStatus) := by
  rcases updateOrderStatus_orders_cases db u oid st with hc | ⟨order, ns, hord, hns, hc⟩
  · rw [hc] at h
    exact ⟨o', h, rfl, Or.inl rfl⟩
  · rw [hc] at h
    rcases mem_updateFirstBy h with h1 | ⟨x, hx, h1⟩
    · exact ⟨o', h1, rfl, Or.inl rfl⟩
    · have hxo : x = order := by
        rw [hord] at hx
        exact (Option.some.inj hx).symm
      subst hxo
      subst h1
      exact ⟨x, List.mem_of_find?_eq_some hord, rfl, Or.inr hns⟩

theorem cancelOrder_safety {db : DB} {u : ReqUser} {oid : Nat} {o' : Order}
    (h : o' ∈ (cancelOrder db u oid).2.orders) :
    ∃ o, o ∈ db.orders ∧ o.id = o'.id ∧
      (o'.orderStatus = o.orderStatus ∨ o'.orderStatus ∈ validTransitions o.orderStatus) := by
  rcases cancelOrder_orders_cases db u oid with hc | ⟨order, hord, hpend, hc⟩
  · rw [hc] at h
    exact ⟨o', h, rfl, Or.inl rfl⟩
  · rw [hc] at h
    rcases mem_updateFirstBy h with h1 | ⟨x, hx, h1⟩
    · exact ⟨o', h1, rfl, Or.inl rfl⟩
    · have hxo : x = order := by
        rw [hord] at hx
        exact (Option.some.inj hx).symm
      subst hxo
      subst h1
      refine ⟨x, List.mem_of_find?_eq_some hord, rfl, Or.inr ?_⟩
      rw [hpend]
      show OrderStatus.cancelled ∈ validTransitions OrderStatus.pending
      decide

/-- C1: for every order and every requested status change via
`updateOrderStatus` or `cancelOrder`, `orderStatus` only moves along the
edges pending→shipped, pending→cancelled, shipped→delivered (first three
conjuncts: the transition table is exactly that edge set, and both
operations only ever rewrite an order's status along it); any other
requested transition — including any transition out of `delivered` or
`cancelled`, and cancelling a non-pending order — is rejected with the
invalid-transition error of the source and leaves the database, hence the
order's status, unchanged (last two conjuncts). -/
theorem C1_order_status_transition_table :
    (∀ a b', b' ∈ validTransitions a ↔
      ((a = .pending ∧ b' = .shipped) ∨ (a = .pending ∧ b' = .cancelled) ∨
        (a = .shipped ∧ b' = .delivered))) ∧
    (∀ db u oid st o', o' ∈ (updateOrderStatus db u oid st).2.orders →
      ∃ o, o ∈ db.orders ∧ o.id = o'.id ∧
        (o'.orderStatus = o.orderStatus ∨ o'.orderStatus ∈ validTransitions o.orderStatus)) ∧
    (∀ db u oid o', o' ∈ (cancelOrder db u oid).2.orders →
      ∃ o, o ∈ db.orders ∧ o.id = o'.id ∧
        (o'.orderStatus = o.orderStatus ∨ o'.orderStatus ∈ validTransitions o.orderStatus)) ∧
    (∀ db u oid st ns order,
      truthyS st = true →
      parseOrderStatus (st.getD "") = some ns →
      db.orders.find? (fun o => o.id == oid) = some order →
      (order.librarian = u.id ∨ u.role = "admin") →
      ns ∉ validTransitions order.orderStatus →
      updateOrderStatus db u oid st =
        (.err 400 (invalidTransitionMsg order.orderStatus ns), db)) ∧
    (∀ db u oid order,
      db.orders.find? (fun o => o.id == oid) = some order →
      order.user = u.id →
      order.orderStatus ≠ .pending →
      cancelOrder db u oid =
        (.err 400 ("Cannot cancel order with status '" ++ order.orderStatus.str ++
          "'. Only pending orders can be cancelled."), db)) := by
  refine ⟨fun a b' => by cases a <;> cases b' <;> decide, ?_, ?_, ?_, ?_⟩
  · exact fun db u oid st o' h => updateOrderStatus_safety h
  · exact fun db u oid o' h => cancelOrder_safety h
  · exact fun db u oid st ns order h1 h2 h3 h4 h5 =>
      updateOrderStatus_invalid db u oid st ns order h1 h2 h3 h4 h5
  · exact fun db u oid order h1 h2 h3 => cancelOrder_nonpending db u oid order h1 h2 h3

/-- Witness for C1: a librarian requesting pending→delivered gets the
invalid-transition error, and the buyer cancelling a delivered order gets
the cancel rejection; both leave the store untouched. -/
theorem C1_order_status_transition_table_witness :
    updateOrderStatus (wDB [wOrder]) wLibrarian 1 (some ("delivered")) =
      (.err 400 (invalidTransitionMsg .pending .delivered), wDB [wOrder]) ∧
    cancelOrder (wDB [wOrderDelivered]) wBuyer 1 =
      (.err 400 ("Cannot cancel order with status '" ++ OrderStatus.str .delivered ++
        "'. Only pending orders can be cancelled."), wDB [wOrderDelivered]) := by
  constructor
  · exact C1_order_status_transition_table.2.2.2.1 (wDB [wOrder]) wLibrarian 1
      (some ("delivered")) .delivered wOrder (by decide) (by decide) (by decide)
      (Or.inl (by decide)) (by decide)
  · exact C1_order_status_transition_table.2.2.2.2 (wDB [wOrderDelivered]) wBuyer 1
      wOrderDelivered (by decide) (by decide) (by decide)

/-! Branch analysis of `createPaymentW` / `createPayment` /
`updatePaymentStatus`. -/

theorem createPaymentW_already_paid (db : DB) (u : ReqUser) (b : PaymentBody)
    (oau : List Order) (order : Order)
    (h1 : paymentMissing b = [])
    (h2 : 0 < b.amount.getD 0)
    (h3 : db.orders.find? (fun o => o.id == b.orderId.getD 0) = some order)
    (h4 : order.user = u.id)
    (h5 : order.paymentStatus = .paid) :
    createPaymentW db u b oau =
      (.err 400 ("Payment has already been completed for this order"), db) := by
  unfold createPaymentW
  simp [h1, h3, h4, h5, not_le.mpr h2]

theorem createPaymentW_amount_mismatch (db : DB) (u : ReqUser) (b : PaymentBody)
    (oau : List Order) (order : Order)
    (h1 : paymentMissing b = [])
    (h2 : 0 < b.amount.getD 0)
    (h3 : db.orders.find? (fun o => o.id == b.orderId.getD 0) = some order)
    (h4 : order.user = u.id)
    (h5 : order.paymentStatus ≠ .paid)
    (h6 : b.amount.getD 0 ≠ order.totalAmount) :
    createPaymentW db u b oau =
      (.err 400 ("Payment amount (" ++ ratStr (b.amount.getD 0) ++
        ") does not match order total (" ++ ratStr order.totalAmount ++ ")"), db) := by
  unfold createPaymentW
  simp [h1, h3, h4, h5, h6, not_le.mpr h2]

theorem createPaymentW_update_failed (db : DB) (u : ReqUser) (b : PaymentBody)
    (oau : List Order) (order : Order)
    (h1 : paymentMissing b = [])
    (h2 : 0 < b.amount.getD 0)
    (h3 : db.orders.find? (fun o => o.id == b.orderId.getD 0) = some order)
    (h4 : order.user = u.id)
    (h5 : order.paymentStatus ≠ .paid)
    (h6 : b.amount.getD 0 = order.totalAmount)
    (h7 : db.payments.find? (fun p => p.paymentId == b.paymentId.getD "") = none)
    (h7b : db.payments.any (fun p => p.paymentId == jsTrim (b.paymentId.getD "")) = false)
    (h8 : ∀ p ∈ db.payments, p.id ≠ db.nextId)
    (h9 : oau.any (fun o => o.id == b.orderId.getD 0) = false) :
    createPaymentW db u b oau =
      (.err 500 ("Failed to update order payment status"),
        { db with orders := oau, nextId := db.nextId + 1 }) := by
  have h2t : ¬ order.totalAmount ≤ 0 := by
    rw [← h6]
    exact not_le.mpr h2
  unfold createPaymentW
  simp [h1, h3, h4, h5, h6, h7, h7b, h9, not_le.mpr h2, h2t, paymentDocOf]
  exact deleteFirstBy_append_singleton (by simp)
    (fun x hx => by simp only [beq_eq_false_iff_ne]; exact h8 x hx)

theorem createPaymentW_result_cases (db : DB) (u : ReqUser) (b : PaymentBody)
    (oau : List Order) :
    ((createPaymentW db u b oau).1.isOk = false ∧
      (createPaymentW db u b oau).2.payments = db.payments) ∨
    (db.payments.any (fun p => p.paymentId == jsTrim (b.paymentId.getD "")) = false ∧
      (createPaymentW db u b oau).1.isOk = false ∧
      (createPaymentW db u b oau).2.payments =
        deleteFirstBy (fun p => p.id == (paymentDocOf db u b).id)
          (db.payments ++ [paymentDocOf db u b])) ∨
    (db.payments.any (fun p => p.paymentId == jsTrim (b.paymentId.getD "")) = false ∧
      (createPaymentW db u b oau).1.isOk = true ∧
      (createPaymentW db u b oau).2.payments = db.payments ++ [paymentDocOf db u b]) := by
  unfold createPaymentW
  split
  · exact Or.inl ⟨rfl, rfl⟩
  · split
    · exact Or.inl ⟨rfl, rfl⟩
    · split
      · exact Or.inl ⟨rfl, rfl⟩
      · split
        · exact Or.inl ⟨rfl, rfl⟩
        · split
          · exact Or.inl ⟨rfl, rfl⟩
          · split
            · exact Or.inl ⟨rfl, rfl⟩
            · split
              · exact Or.inl ⟨rfl, rfl⟩
              · split
                · exact Or.inl ⟨rfl, rfl⟩
                · next hcol =>
                  split
                  · exact Or.inr (Or.inr ⟨by simpa using hcol, rfl, rfl⟩)
                  · exact Or.inr (Or.inl ⟨by simpa using hcol, rfl, rfl⟩)

theorem createPaymentW_err_payments_unchanged (db : DB) (u : ReqUser)
    (b : PaymentBody) (oau : List Order)
    (h8 : ∀ p ∈ db.payments, p.id ≠ db.nextId)
    (herr : (createPaymentW db u b oau).1.isOk = false) :
    (createPaymentW db u b oau).2.payments = db.payments := by
  rcases createPaymentW_result_cases db u b oau with ⟨_, hp⟩ | ⟨_, _, hp⟩ | ⟨_, hok, _⟩
  · exact hp
  · rw [hp]
    exact deleteFirstBy_append_singleton (by simp [paymentDocOf])
      (fun x hx => by
        simp only [beq_eq_false_iff_ne, paymentDocOf]
        exact h8 x hx)
  · rw [hok] at herr
    exact absurd herr (by simp)

theorem createPaymentW_success_amount (db : DB) (u : ReqUser) (b : PaymentBody)
    (oau : List Order) (order : Order)
    (h3 : db.orders.find? (fun o => o.id == b.orderId.getD 0) = some order)
    (hok : (createPaymentW db u b oau).1.isOk = true) :
    b.amount.getD 0 = order.totalAmount := by
  unfold createPaymentW at hok
  simp only [h3] at hok
  split at hok
  · simp [Res.isOk] at hok
  · split at hok
    · simp [Res.isOk] at hok
    · split at hok
      · simp [Res.isOk] at hok
      · split at hok
        · simp [Res.isOk] at hok
        · split at hok
          · simp [Res.isOk] at hok
          · next h6 => exact not_not.mp h6

theorem createPayment_orders_cases (db : DB) (u : ReqUser) (b : PaymentBody) :
    (createPayment db u b).2.orders = db.orders ∨
      ∃ order, db.orders.find? (fun o => o.id == b.orderId.getD 0) = some order ∧
        order.paymentStatus ≠ .paid ∧
        (createPayment db u b).2.orders =
          updateFirstBy (fun o => o.id == b.orderId.getD 0)
            (fun o => { o with paymentStatus := .paid }) db.orders := by
  unfold createPayment createPaymentW
  split
  · exact Or.inl rfl
  · split
    · exact Or.inl rfl
    · split
      · exact Or.inl rfl
      · next order hord =>
        split
        · exact Or.inl rfl
        · split
          · exact Or.inl rfl
          · next hpaid =>
            split
            · exact Or.inl rfl
            · split
              · exact Or.inl rfl
              · split
                · exact Or.inl rfl
                · split
                  · exact Or.inr ⟨order, hord, hpaid, rfl⟩
                  · exact Or.inl rfl

theorem updatePaymentStatus_already_paid (db : DB) (u : ReqUser) (oid : Nat)
    (order : Order)
    (h1 : db.orders.find? (fun o => o.id == oid) = some order)
    (h2 : order.user = u.id)
    (h3 : order.paymentStatus = .paid) :
    updatePaymentStatus db u oid =
      (.err 400 ("Payment has already been completed for this order"), db) := by
  unfold updatePaymentStatus
  rw [h1]
  simp [h2, h3]

theorem updatePaymentStatus_orders_cases (db : DB) (u : ReqUser) (oid : Nat) :
    (updatePaymentStatus db u oid).2.orders = db.orders ∨
      ∃ order, db.orders.find? (fun o => o.id == oid) = some order ∧
        order.paymentStatus ≠ .paid ∧
        (updatePaymentStatus db u oid).2.orders =
          updateFirstBy (fun o => o.id == oid)
            (fun o => { o with paymentStatus := .paid }) db.orders := by
  unfold updatePaymentStatus
  split
  · exact Or.inl rfl
  · next order hord =>
    split
    · exact Or.inl rfl
    · split
      · exact Or.inl rfl
      · next hpaid => exact Or.inr ⟨order, hord, hpaid, rfl⟩

theorem createPayment_paid_monotone {db : DB} {u : ReqUser} {b : PaymentBody}
    {o' : Order} (h : o' ∈ (createPayment db u b).2.orders) :
    ∃ o, o ∈ db.orders ∧ o.id = o'.id ∧
      (o'.paymentStatus = o.paymentStatus ∨
        (o.paymentStatus = .unpaid ∧ o'.paymentStatus = .paid)) := by
  rcases createPayment_orders_cases db u b with hc | ⟨order, hord, hnp, hc⟩
  · rw [hc] at h
    exact ⟨o', h, rfl, Or.inl rfl⟩
  · rw [hc] at h
    rcases mem_updateFirstBy h with h1 | ⟨x, hx, h1⟩
    · exact ⟨o', h1, rfl, Or.inl rfl⟩
    · have hxo : x = order := by
        rw [hord] at hx
        exact (Option.some.inj hx).symm
      subst hxo
      subst h1
      refine ⟨x, List.mem_of_find?_eq_some hord, rfl, Or.inr ⟨?_, rfl⟩⟩
      cases hp : x.paymentStatus
      · rfl
      · exact absurd hp hnp

theorem updatePaymentStatus_paid_monotone {db : DB} {u : ReqUser} {oid : Nat}
    {o' : Order} (h : o' ∈ (updatePaymentStatus db u oid).2.orders) :
    ∃ o, o ∈ db.orders ∧ o.id = o'.id ∧
      (o'.paymentStatus = o.paymentStatus ∨
        (o.paymentStatus = .unpaid ∧ o'.paymentStatus = .paid)) := by
  rcases updatePaymentStatus_orders_cases db u oid with hc | ⟨order, hord, hnp, hc⟩
  · rw [hc] at h
    exact ⟨o', h, rfl, Or.inl rfl⟩
  · rw [hc] at h
    rcases mem_updateFirstBy h with h1 | ⟨x, hx, h1⟩
    · exact ⟨o', h1, rfl, Or.inl rfl⟩
    · have hxo : x = order := by
        rw [hord] at hx
        exact (Option.some.inj hx).symm
      subst hxo
      subst h1
      refine ⟨x, List.mem_of_find?_eq_some hord, rfl, Or.inr ⟨?_, rfl⟩⟩
      cases hp : x.paymentStatus
      · rfl
      · exact absurd hp hnp

/-- C2: in `createPayment`, if the order update after a successful payment
insert matches no order, the inserted payment is deleted again and a 500
error is returned, leaving the payments collection exactly as before
(first conjunct, stated over `createPaymentW` whose `oau` argument is the
orders collection at update time; the `any … = false` hypothesis says the
insert itself succeeded, that is, it did not violate the store's unique
`paymentId` index); more generally, whenever `createPayment` returns an
error, no payment record persists (second conjunct).  The freshness
hypothesis (`nextId` unused by stored payments) holds of every store built
by the insert operations. -/
theorem C2_payment_insert_compensated :
    (∀ db u b oau order,
      paymentMissing b = [] →
      0 < b.amount.getD 0 →
      db.orders.find? (fun o => o.id == b.orderId.getD 0) = some order →
      order.user = u.id →
      order.paymentStatus ≠ .paid →
      b.amount.getD 0 = order.totalAmount →
      db.payments.find? (fun p => p.paymentId == b.paymentId.getD "") = none →
      db.payments.any (fun p => p.paymentId == jsTrim (b.paymentId.getD "")) = false →
      (∀ p ∈ db.payments, p.id ≠ db.nextId) →
      oau.any (fun o => o.id == b.orderId.getD 0) = false →
      createPaymentW db u b oau =
        (.err 500 ("Failed to update order payment status"),
          { db with orders := oau, nextId := db.nextId + 1 })) ∧
    (∀ db u b oau,
      (∀ p ∈ db.payments, p.id ≠ db.nextId) →
      (createPaymentW db u b oau).1.isOk = false →
      (createPaymentW db u b oau).2.payments = db.payments) := by
  constructor
  · exact fun db u b oau order h1 h2 h3 h4 h5 h6 h7 h7b h8 h9 =>
      createPaymentW_update_failed db u b oau order h1 h2 h3 h4 h5 h6 h7 h7b h8 h9
  · exact fun db u b oau h8 herr =>
      createPaymentW_err_payments_unchanged db u b oau h8 herr

/-- Witness for C2: the validated payment against the pending order is
inserted, the update step runs against an orders collection from which the
order has disappeared, and the run ends in the 500 error with the payments
collection restored. -/
theorem C2_payment_insert_compensated_witness :
    createPaymentW (wDB [wOrder]) wBuyer (wPayBody 1 ("TZ") 10) [] =
      (.err 500 ("Failed to update order payment status"),
        { wDB [wOrder] with orders := [], nextId := 101 }) := by
  exact C2_payment_insert_compensated.1 (wDB [wOrder]) wBuyer (wPayBody 1 ("TZ") 10)
    [] wOrder (by decide) (by decide) (by decide) (by decide) (by decide) (by decide)
    (by decide) (by decide) (by decide) (by decide)

/-- C3: once an order is `paid`, both payment paths reject a further
attempt with the already-paid error and leave the whole store unchanged
(first two conjuncts: `createPayment` after its field/ownership
validations, and the buyer's mark-paid action `updatePaymentStatus`), and
each operation only ever moves a `paymentStatus` from `unpaid` to `paid`,
never the reverse (last two conjuncts). -/
theorem C3_payment_status_at_most_once :
    (∀ db u b order,
      paymentMissing b = [] →
      0 < b.amount.getD 0 →
      db.orders.find? (fun o => o.id == b.orderId.getD 0) = some order →
      order.user = u.id →
      order.paymentStatus = .paid →
      createPayment db u b =
        (.err 400 ("Payment has already been completed for this order"), db)) ∧
    (∀ db u oid order,
      db.orders.find? (fun o => o.id == oid) = some order →
      order.user = u.id →
      order.paymentStatus = .paid →
      updatePaymentStatus db u oid =
        (.err 400 ("Payment has already been completed for this order"), db)) ∧
    (∀ db u b o', o' ∈ (createPayment db u b).2.orders →
      ∃ o, o ∈ db.orders ∧ o.id = o'.id ∧
        (o'.paymentStatus = o.paymentStatus ∨
          (o.paymentStatus = .unpaid ∧ o'.paymentStatus = .paid))) ∧
    (∀ db u oid o', o' ∈ (updatePaymentStatus db u oid).2.orders →
      ∃ o, o ∈ db.orders ∧ o.id = o'.id ∧
        (o'.paymentStatus = o.paymentStatus ∨
          (o.paymentStatus = .unpaid ∧ o'.paymentStatus = .paid))) := by
  refine ⟨?_, ?_, ?_, ?_⟩
  · exact fun db u b order h1 h2 h3 h4 h5 =>
      createPaymentW_already_paid db u b db.orders order h1 h2 h3 h4 h5
  · exact fun db u oid order h1 h2 h3 =>
      updatePaymentStatus_already_paid db u oid order h1 h2 h3
  · exact fun db u b o' h => createPayment_paid_monotone h
  · exact fun db u oid o' h => updatePaymentStatus_paid_monotone h

/-- Witness for C3: both payment paths against an already-paid order return
the already-paid error and leave the store untouched. -/
theorem C3_payment_status_at_most_once_witness :
    createPayment (wDB [wOrderPaid]) wBuyer (wPayBody 1 ("T1") 10) =
      (.err 400 ("Payment has already been completed for this order"),
        wDB [wOrderPaid]) ∧
    updatePaymentStatus (wDB [wOrderPaid]) wBuyer 1 =
      (.err 400 ("Payment has already been completed for this order"),
        wDB [wOrderPaid]) := by
  constructor
  · exact C3_payment_status_at_most_once.1 (wDB [wOrderPaid]) wBuyer
      (wPayBody 1 ("T1") 10) wOrderPaid (by decide) (by decide) (by decide)
      (by decide) (by decide)
  · exact C3_payment_status_at_most_once.2.1 (wDB [wOrderPaid]) wBuyer 1 wOrderPaid
      (by decide) (by decide) (by decide)

/-- C4: a `createPayment` whose amount differs from the order's captured
`totalAmount` is rejected with the mismatch error before any write (first
conjunct), and a successful `createPayment` forces the supplied amount to
equal the order's `totalAmount` exactly (second conjunct) — an exact
rational comparison, with no tolerance band. -/
theorem C4_payment_amount_exact :
    (∀ db u b order,
      paymentMissing b = [] →
      0 < b.amount.getD 0 →
      db.orders.find? (fun o => o.id == b.orderId.getD 0) = some order →
      order.user = u.id →
      order.paymentStatus ≠ .paid →
      b.amount.getD 0 ≠ order.totalAmount →
      createPayment db u b =
        (.err 400 ("Payment amount (" ++ ratStr (b.amount.getD 0) ++
          ") does not match order total (" ++ ratStr order.totalAmount ++ ")"), db)) ∧
    (∀ db u b order,
      db.orders.find? (fun o => o.id == b.orderId.getD 0) = some order →
      (createPayment db u b).1.isOk = true →
      b.amount.getD 0 = order.totalAmount) := by
  constructor
  · exact fun db u b order h1 h2 h3 h4 h5 h6 =>
      createPaymentW_amount_mismatch db u b db.orders order h1 h2 h3 h4 h5 h6
  · exact fun db u b order h3 hok =>
      createPaymentW_success_amount db u b db.orders order h3 hok

/-- Witness for C4: paying 5 against a 10 order is rejected with the
mismatch message and an unchanged store. -/
theorem C4_payment_amount_exact_witness :
    createPayment (wDB [wOrder]) wBuyer (wPayBody 1 ("T1") 5) =
      (.err 400 ("Payment amount (" ++ ratStr 5 ++
        ") does not match order total (" ++ ratStr 10 ++ ")"), wDB [wOrder]) := by
  exact C4_payment_amount_exact.1 (wDB [wOrder]) wBuyer (wPayBody 1 ("T1") 5) wOrder
    (by decide) (by decide) (by decide) (by decide) (by decide) (by decide)

theorem createPaymentW_not_owner (db : DB) (u : ReqUser) (b : PaymentBody)
    (oau : List Order) (order : Order)
    (h1 : paymentMissing b = [])
    (h2 : 0 < b.amount.getD 0)
    (h3 : db.orders.find? (fun o => o.id == b.orderId.getD 0) = some order)
    (h4 : order.user ≠ u.id) :
    createPaymentW db u b oau =
      (.err 403 ("You can only create payment for your own orders"), db) := by
  unfold createPaymentW
  simp [h1, h3, h4, not_le.mpr h2]

theorem createPaymentW_duplicate_raw (db : DB) (u : ReqUser) (b : PaymentBody)
    (oau : List Order) (order : Order) (p0 : Payment)
    (h1 : paymentMissing b = [])
    (h2 : 0 < b.amount.getD 0)
    (h3 : db.orders.find? (fun o => o.id == b.orderId.getD 0) = some order)
    (h4 : order.user = u.id)
    (h5 : order.paymentStatus ≠ .paid)
    (h6 : b.amount.getD 0 = order.totalAmount)
    (h7 : db.payments.find? (fun p => p.paymentId == b.paymentId.getD "") = some p0) :
    createPaymentW db u b oau =
      (.err 400 ("Payment ID already exists. Duplicate payment detected."), db) := by
  have h2t : ¬ order.totalAmount ≤ 0 := by
    rw [← h6]
    exact not_le.mpr h2
  unfold createPaymentW
  simp [h1, h3, h4, h5, h6, h7, not_le.mpr h2, h2t]

theorem createPaymentW_unique_index_violation (db : DB) (u : ReqUser)
    (b : PaymentBody) (oau : List Order) (order : Order)
    (h1 : paymentMissing b = [])
    (h2 : 0 < b.amount.getD 0)
    (h3 : db.orders.find? (fun o => o.id == b.orderId.getD 0) = some order)
    (h4 : order.user = u.id)
    (h5 : order.paymentStatus ≠ .paid)
    (h6 : b.amount.getD 0 = order.totalAmount)
    (h7 : db.payments.find? (fun p => p.paymentId == b.paymentId.getD "") = none)
    (h7b : db.payments.any (fun p => p.paymentId == jsTrim (b.paymentId.getD "")) = true) :
    createPaymentW db u b oau = (.err 500 ("Failed to create payment"), db) := by
  have h2t : ¬ order.totalAmount ≤ 0 := by
    rw [← h6]
    exact not_le.mpr h2
  unfold createPaymentW
  simp [h1, h3, h4, h5, h6, h7, h7b, not_le.mpr h2, h2t]

theorem createPayment_paymentIds_nodup (db : DB) (u : ReqUser) (b : PaymentBody)
    (hfresh : ∀ p ∈ db.payments, p.id ≠ db.nextId)
    (hnd : (db.payments.map Payment.paymentId).Nodup) :
    ((createPayment db u b).2.payments.map Payment.paymentId).Nodup := by
  unfold createPayment
  rcases createPaymentW_result_cases db u b db.orders with
    ⟨_, hp⟩ | ⟨_, _, hp⟩ | ⟨hcol, _, hp⟩
  · rw [hp]
    exact hnd
  · rw [hp, deleteFirstBy_append_singleton (by simp [paymentDocOf])
      (fun x hx => by
        simp only [beq_eq_false_iff_ne, paymentDocOf]
        exact hfresh x hx)]
    exact hnd
  · rw [hp, List.map_append]
    have hkey : (paymentDocOf db u b).paymentId ∉ db.payments.map Payment.paymentId := by
      intro hmem
      rcases List.mem_map.mp hmem with ⟨x, hx, hkx⟩
      have hfalse := List.any_eq_false.mp hcol x hx
      exact hfalse (by simp [hkx, paymentDocOf])
    simp only [List.map_cons, List.map_nil]
    rw [List.nodup_append]
    exact ⟨hnd, List.nodup_singleton _, by
      intro a ha hb
      rcases List.mem_singleton.mp hb with rfl
      exact hkey ha⟩

/-- C5: `createPayment` validates that the order belongs to the requesting
buyer (first conjunct) and that it is not already paid (second conjunct),
both before any write; the external transaction identifier is globally
unique: supplying an identifier whose raw value matches a stored one is
rejected as a duplicate by the controller's check (third conjunct), and
when the raw check misses but the value to be stored (the trimmed
identifier) collides with a stored one, the store's unique `paymentId`
index makes the insert itself fail, so the request errors with nothing
persisted (fourth conjunct); hence pairwise distinctness of the stored
identifiers of successfully created payments is preserved by every
`createPayment` (fifth conjunct, under the `nextId` store invariant). -/
theorem C5_payment_validations_and_unique_identifier :
    (∀ db u b order,
      paymentMissing b = [] →
      0 < b.amount.getD 0 →
      db.orders.find? (fun o => o.id == b.orderId.getD 0) = some order →
      order.user ≠ u.id →
      createPayment db u b =
        (.err 403 ("You can only create payment for your own orders"), db)) ∧
    (∀ db u b order,
      paymentMissing b = [] →
      0 < b.amount.getD 0 →
      db.orders.find? (fun o => o.id == b.orderId.getD 0) = some order →
      order.user = u.id →
      order.paymentStatus = .paid →
      createPayment db u b =
        (.err 400 ("Payment has already been completed for this order"), db)) ∧
    (∀ db u b order p0,
      paymentMissing b = [] →
      0 < b.amount.getD 0 →
      db.orders.find? (fun o => o.id == b.orderId.getD 0) = some order →
      order.user = u.id →
      order.paymentStatus ≠ .paid →
      b.amount.getD 0 = order.totalAmount →
      db.payments.find? (fun p => p.paymentId == b.paymentId.getD "") = some p0 →
      createPayment db u b =
        (.err 400 ("Payment ID already exists. Duplicate payment detected."), db)) ∧
    (∀ db u b order,
      paymentMissing b = [] →
      0 < b.amount.getD 0 →
      db.orders.find? (fun o => o.id == b.orderId.getD 0) = some order →
      order.user = u.id →
      order.paymentStatus ≠ .paid →
      b.amount.getD 0 = order.totalAmount →
      db.payments.find? (fun p => p.paymentId == b.paymentId.getD "") = none →
      db.payments.any (fun p => p.paymentId == jsTrim (b.paymentId.getD "")) = true →
      createPayment db u b = (.err 500 ("Failed to create payment"), db)) ∧
    (∀ db u b,
      (∀ p ∈ db.payments, p.id ≠ db.nextId) →
      (db.payments.map Payment.paymentId).Nodup →
      ((createPayment db u b).2.payments.map Payment.paymentId).Nodup) := by
  refine ⟨?_, ?_, ?_, ?_, ?_⟩
  · exact fun db u b order h1 h2 h3 h4 =>
      createPaymentW_not_owner db u b db.orders order h1 h2 h3 h4
  · exact fun db u b order h1 h2 h3 h4 h5 =>
      createPaymentW_already_paid db u b db.orders order h1 h2 h3 h4 h5
  · exact fun db u b order p0 h1 h2 h3 h4 h5 h6 h7 =>
      createPaymentW_duplicate_raw db u b db.orders order p0 h1 h2 h3 h4 h5 h6 h7
  · exact fun db u b order h1 h2 h3 h4 h5 h6 h7 h7b =>
      createPaymentW_unique_index_violation db u b db.orders order h1 h2 h3 h4 h5 h6 h7 h7b
  · exact fun db u b hfresh hnd => createPayment_paymentIds_nodup db u b hfresh hnd

/-- Witness for C5: a stranger paying someone else's order gets 403; with a
stored payment carrying identifier `TX1`, resupplying `TX1` is rejected as
a duplicate, supplying `\x20TX1` (same identifier up to the trim applied
before storing) fails on the unique index with 500 and an unchanged store,
and a fresh identifier keeps the stored identifiers pairwise distinct. -/
theorem C5_payment_validations_and_unique_identifier_witness :
    createPayment (wDB [wOrder]) wOtherBuyer (wPayBody 1 ("T9") 10) =
      (.err 403 ("You can only create payment for your own orders"), wDB [wOrder]) ∧
    createPayment (wDB [wOrderPaid]) wBuyer (wPayBody 1 ("T2") 10) =
      (.err 400 ("Payment has already been completed for this order"),
        wDB [wOrderPaid]) ∧
    createPayment wDBp wBuyer (wPayBody 1 ("TX1") 10) =
      (.err 400 ("Payment ID already exists. Duplicate payment detected."), wDBp) ∧
    createPayment wDBp wBuyer (wPayBody 1 (" TX1") 10) =
      (.err 500 ("Failed to create payment"), wDBp) ∧
    ((createPayment wDBp wBuyer (wPayBody 1 ("TX7") 10)).2.payments.map
      Payment.paymentId).Nodup := by
  refine ⟨?_, ?_, ?_, ?_, ?_⟩
  · exact C5_payment_validations_and_unique_identifier.1 (wDB [wOrder]) wOtherBuyer
      (wPayBody 1 ("T9") 10) wOrder (by decide) (by decide) (by decide) (by decide)
  · exact C5_payment_validations_and_unique_identifier.2.1 (wDB [wOrderPaid]) wBuyer
      (wPayBody 1 ("T2") 10) wOrderPaid (by decide) (by decide) (by decide)
      (by decide) (by decide)
  · exact C5_payment_validations_and_unique_identifier.2.2.1 wDBp wBuyer
      (wPayBody 1 ("TX1") 10) wOrder wPayment (by decide) (by decide) (by decide)
      (by decide) (by decide) (by decide) (by decide)
  · exact C5_payment_validations_and_unique_identifier.2.2.2.1 wDBp wBuyer
      (wPayBody 1 (" TX1") 10) wOrder (by decide) (by decide) (by decide)
      (by decide) (by decide) (by decide) (by decide) (by decide)
  · exact C5_payment_validations_and_unique_identifier.2.2.2.2 wDBp wBuyer
      (wPayBody 1 ("TX7") 10) (by decide) (by decide)

/-! `placeOrder` and `updateBook` analysis. -/

theorem placeOrder_success (db : DB) (u : ReqUser) (b : PlaceOrderBody) (book : Book)
    (h1 : placeOrderMissing b = [])
    (h2 : emailOk (b.userEmail.getD "") = true)
    (h3 : ¬ (b.phoneNumber.getD "").length < 10)
    (h4 : db.books.find? (fun bk => bk.id == b.bookId.getD 0) = some book)
    (h5 : book.status = "published") :
    placeOrder db u b =
      (.ok 201 ("Order placed successfully"),
        { db with
          orders := db.orders ++
            [{ id := db.nextId
               user := u.id
               book := b.bookId.getD 0
               librarian := book.librarian
               userName := jsTrim (b.userName.getD "")
               userEmail := jsToLower (jsTrim (b.userEmail.getD ""))
               phoneNumber := jsTrim (b.phoneNumber.getD "")
               address := jsTrim (b.address.getD "")
               orderStatus := .pending
               paymentStatus := .unpaid
               totalAmount := book.price }]
          nextId := db.nextId + 1 }) := by
  unfold placeOrder
  simp [h1, h2, h3, h4, h5]

theorem placeOrder_not_published (db : DB) (u : ReqUser) (b : PlaceOrderBody)
    (book : Book)
    (h1 : placeOrderMissing b = [])
    (h2 : emailOk (b.userEmail.getD "") = true)
    (h3 : ¬ (b.phoneNumber.getD "").length < 10)
    (h4 : db.books.find? (fun bk => bk.id == b.bookId.getD 0) = some book)
    (h5 : book.status ≠ "published") :
    placeOrder db u b =
      (.err 400 ("This book is not available for order. Only published books can be ordered."),
        db) := by
  unfold placeOrder
  simp [h1, h2, h3, h4, h5]

theorem updateBook_orders_unchanged (db : DB) (u : ReqUser) (bid : Nat)
    (b : BookUpdateBody) : (updateBook db u bid b).2.orders = db.orders := by
  unfold updateBook
  split
  · rfl
  · split
    · rfl
    · split
      · rfl
      · split
        · rfl
        · rfl

/-- C6: a successful `placeOrder` for a `published` book creates exactly one
new order with `orderStatus = pending`, `paymentStatus = unpaid`,
`totalAmount` equal to the book's price at that instant and `librarian`
equal to the book's owning librarian at that instant (first conjunct, a
full characterisation of the output state); if the book's status is not
`published` the request is rejected and no order is created (second
conjunct); and `updateBook` — the operation that changes a book's price —
never touches the orders collection, so later price changes cannot alter a
captured `totalAmount` (third conjunct). -/
theorem C6_order_snapshot_of_published_book :
    (∀ db u b book,
      placeOrderMissing b = [] →
      emailOk (b.userEmail.getD "") = true →
      ¬ (b.phoneNumber.getD "").length < 10 →
      db.books.find? (fun bk => bk.id == b.bookId.getD 0) = some book →
      book.status = "published" →
      placeOrder db u b =
        (.ok 201 ("Order placed successfully"),
          { db with
            orders := db.orders ++
              [{ id := db.nextId
                 user := u.id
                 book := b.bookId.getD 0
                 librarian := book.librarian
                 userName := jsTrim (b.userName.getD "")
                 userEmail := jsToLower (jsTrim (b.userEmail.getD ""))
                 phoneNumber := jsTrim (b.phoneNumber.getD "")
                 address := jsTrim (b.address.getD "")
                 orderStatus := .pending
                 paymentStatus := .unpaid
                 totalAmount := book.price }]
            nextId := db.nextId + 1 })) ∧
    (∀ db u b book,
      placeOrderMissing b = [] →
      emailOk (b.userEmail.getD "") = true →
      ¬ (b.phoneNumber.getD "").length < 10 →
      db.books.find? (fun bk => bk.id == b.bookId.getD 0) = some book →
      book.status ≠ "published" →
      placeOrder db u b =
        (.err 400 ("This book is not available for order. Only published books can be ordered."),
          db)) ∧
    (∀ db u bid b, (updateBook db u bid b).2.orders = db.orders) := by
  refine ⟨?_, ?_, ?_⟩
  · exact fun db u b book h1 h2 h3 h4 h5 => placeOrder_success db u b book h1 h2 h3 h4 h5
  · exact fun db u b book h1 h2 h3 h4 h5 => placeOrder_not_published db u b book h1 h2 h3 h4 h5
  · exact fun db u bid b => updateBook_orders_unchanged db u bid b

/-- Witness for C6: ordering the published 12.99 book captures
`totalAmount = 1299/100`, status pending/unpaid and the book's librarian;
ordering the unpublished book is rejected; raising the book's price to 20
leaves the existing order untouched. -/
theorem C6_order_snapshot_of_published_book_witness :
    placeOrder (wDBb [wBook] []) wBuyer wPlaceBody =
      (.ok 201 ("Order placed successfully"),
        { wDBb [wBook] [] with
          orders :=
            [{ id := 100
               user := 7
               book := 5
               librarian := 3
               userName := "Ann"
               userEmail := "a@b.c"
               phoneNumber := "0123456789"
               address := "addr"
               orderStatus := .pending
               paymentStatus := .unpaid
               totalAmount := mkRat 1299 100 }]
          nextId := 101 }) ∧
    placeOrder (wDBb [wBookDraft] []) wBuyer wPlaceBodyDraft =
      (.err 400 ("This book is not available for order. Only published books can be ordered."),
        wDBb [wBookDraft] []) ∧
    (updateBook (wDBb [wBook] [wOrder]) wLibrarian 5 wPriceBody).2.orders = [wOrder] := by
  refine ⟨?_, ?_, ?_⟩
  · exact C6_order_snapshot_of_published_book.1 (wDBb [wBook] []) wBuyer wPlaceBody
      wBook (by decide) (by decide) (by decide) (by decide) (by decide)
  · exact C6_order_snapshot_of_published_book.2.1 (wDBb [wBookDraft] []) wBuyer
      wPlaceBodyDraft wBookDraft (by decide) (by decide) (by decide) (by decide)
      (by decide)
  · exact C6_order_snapshot_of_published_book.2.2 (wDBb [wBook] [wOrder]) wLibrarian
      5 wPriceBody

/-! `addReview` analysis. -/

theorem addReview_no_delivered_order (db : DB) (u : ReqUser) (b : ReviewBody)
    (h1 : truthyId b.bookId = true)
    (h2 : truthyQ b.rating = true)
    (h3 : ¬ (jsParseInt (b.rating.getD 0) < 1 ∨ jsParseInt (b.rating.getD 0) > 5))
    (h4 : db.orders.find? (fun o =>
        o.user == u.id && o.book == b.bookId.getD 0 && o.orderStatus == .delivered) = none) :
    addReview db u b =
      (.err 403 ("You must order and receive this book before reviewing it. Only delivered orders can be reviewed."),
        db) := by
  unfold addReview
  simp [h1, h2, h3, h4]

theorem addReview_rating_out_of_range (db : DB) (u : ReqUser) (b : ReviewBody)
    (h1 : truthyId b.bookId = true)
    (h2 : truthyQ b.rating = true)
    (h3 : jsParseInt (b.rating.getD 0) < 1 ∨ jsParseInt (b.rating.getD 0) > 5) :
    addReview db u b = (.err 400 ("Rating must be a number between 1 and 5"), db) := by
  unfold addReview
  simp [h1, h2, h3]

theorem addReview_update (db : DB) (u : ReqUser) (b : ReviewBody)
    (order : Order) (r0 : Review)
    (h1 : truthyId b.bookId = true)
    (h2 : truthyQ b.rating = true)
    (h3 : ¬ (jsParseInt (b.rating.getD 0) < 1 ∨ jsParseInt (b.rating.getD 0) > 5))
    (h4 : db.orders.find? (fun o =>
        o.user == u.id && o.book == b.bookId.getD 0 && o.orderStatus == .delivered) = some order)
    (h5 : db.reviews.find? (fun r => r.user == u.id && r.book == b.bookId.getD 0) = some r0) :
    addReview db u b =
      (.ok 200 ("Review updated successfully"),
        { db with
          reviews := updateFirstBy (fun r => r.user == u.id && r.book == b.bookId.getD 0)
            (fun r => { r with
              rating := jsParseInt (b.rating.getD 0)
              comment := jsCommentOf b.comment }) db.reviews }) := by
  unfold addReview
  simp [h1, h2, h3, h4, h5]

theorem addReview_insert (db : DB) (u : ReqUser) (b : ReviewBody) (order : Order)
    (h1 : truthyId b.bookId = true)
    (h2 : truthyQ b.rating = true)
    (h3 : ¬ (jsParseInt (b.rating.getD 0) < 1 ∨ jsParseInt (b.rating.getD 0) > 5))
    (h4 : db.orders.find? (fun o =>
        o.user == u.id && o.book == b.bookId.getD 0 && o.orderStatus == .delivered) = some order)
    (h5 : db.reviews.find? (fun r => r.user == u.id && r.book == b.bookId.getD 0) = none) :
    addReview db u b =
      (.ok 201 ("Review added successfully"),
        { db with
          reviews := db.reviews ++
            [{ id := db.nextId
               user := u.id
               book := b.bookId.getD 0
               order := order.id
               rating := jsParseInt (b.rating.getD 0)
               comment := jsCommentOf b.comment }]
          nextId := db.nextId + 1 }) := by
  unfold addReview
  simp [h1, h2, h3, h4, h5]

theorem addReview_reviews_cases (db : DB) (u : ReqUser) (b : ReviewBody) :
    ((addReview db u b).1.isOk = false ∧ (addReview db u b).2.reviews = db.reviews) ∨
    (¬ (jsParseInt (b.rating.getD 0) < 1 ∨ jsParseInt (b.rating.getD 0) > 5) ∧
      (addReview db u b).1 = Res.ok 200 ("Review updated successfully") ∧
      (addReview db u b).2.reviews =
        updateFirstBy (fun r => r.user == u.id && r.book == b.bookId.getD 0)
          (fun r => { r with
            rating := jsParseInt (b.rating.getD 0)
            comment := jsCommentOf b.comment }) db.reviews) ∨
    (¬ (jsParseInt (b.rating.getD 0) < 1 ∨ jsParseInt (b.rating.getD 0) > 5) ∧
      db.reviews.find? (fun r => r.user == u.id && r.book == b.bookId.getD 0) = none ∧
      (addReview db u b).1 = Res.ok 201 ("Review added successfully") ∧
      ∃ oid, (addReview db u b).2.reviews = db.reviews ++
        [{ id := db.nextId
           user := u.id
           book := b.bookId.getD 0
           order := oid
           rating := jsParseInt (b.rating.getD 0)
           comment := jsCommentOf b.comment }]) := by
  unfold addReview
  split
  · exact Or.inl ⟨rfl, rfl⟩
  · split
    · exact Or.inl ⟨rfl, rfl⟩
    · next hrange =>
      split
      · exact Or.inl ⟨rfl, rfl⟩
      · next order hord =>
        split
        · exact Or.inr (Or.inl ⟨hrange, rfl, rfl⟩)
        · next hnone => exact Or.inr (Or.inr ⟨hrange, hnone, rfl, order.id, rfl⟩)

theorem addReview_key_nodup_preserved (db : DB) (u : ReqUser) (b : ReviewBody)
    (hnd : (db.reviews.map fun r => (r.user, r.book)).Nodup) :
    ((addReview db u b).2.reviews.map fun r => (r.user, r.book)).Nodup := by
  rcases addReview_reviews_cases db u b with ⟨_, hc⟩ | ⟨_, _, hc⟩ | ⟨_, hn, _, oid, hc⟩
  · rw [hc]
    exact hnd
  · have hmap : (updateFirstBy (fun r => r.user == u.id && r.book == b.bookId.getD 0)
        (fun r => { r with
          rating := jsParseInt (b.rating.getD 0)
          comment := jsCommentOf b.comment }) db.reviews).map
          (fun r => (r.user, r.book)) =
        db.reviews.map (fun r => (r.user, r.book)) :=
      map_updateFirstBy _ _ _ _ (fun x => rfl)
    rw [hc, hmap]
    exact hnd
  · rw [hc, List.map_append]
    have hkey : (u.id, b.bookId.getD 0) ∉ db.reviews.map fun r => (r.user, r.book) := by
      intro hmem
      rcases List.mem_map.mp hmem with ⟨r, hr, hkr⟩
      have hfalse := List.find?_eq_none.mp hn r hr
      have h1 : r.user = u.id := (Prod.mk.injEq _ _ _ _ ▸ hkr).1
      have h2 : r.book = b.bookId.getD 0 := (Prod.mk.injEq _ _ _ _ ▸ hkr).2
      exact hfalse (by simp [h1, h2])
    simp only [List.map_cons, List.map_nil]
    rw [List.nodup_append]
    exact ⟨hnd, List.nodup_singleton _, by
      intro a ha hb
      rcases List.mem_singleton.mp hb with rfl
      exact hkey ha⟩

theorem addReview_rating_range_invariant (db : DB) (u : ReqUser) (b : ReviewBody)
    (hdb : ∀ r ∈ db.reviews, 1 ≤ r.rating ∧ r.rating ≤ 5) :
    ∀ r ∈ (addReview db u b).2.reviews, 1 ≤ r.rating ∧ r.rating ≤ 5 := by
  rcases addReview_reviews_cases db u b with ⟨_, hc⟩ | ⟨hrange, _, hc⟩ | ⟨hrange, _, _, oid, hc⟩
  · rw [hc]
    exact hdb
  · rw [hc]
    intro r hr
    rcases mem_updateFirstBy hr with h1 | ⟨x, _, h1⟩
    · exact hdb r h1
    · subst h1
      push_neg at hrange
      exact ⟨hrange.1, hrange.2⟩
  · rw [hc]
    intro r hr
    rcases List.mem_append.mp hr with h1 | h1
    · exact hdb r h1
    · rcases List.mem_singleton.mp h1 with rfl
      push_neg at hrange
      exact ⟨hrange.1, hrange.2⟩

/-- C7: a review request by a user without a delivered order for the book
is rejected with a 403 and writes nothing (first conjunct); with such an
order, if a review of the (user, book) pair already exists the request
succeeds by overwriting that review's rating and comment in place — the
number of review rows is unchanged (second and third conjuncts) — and
otherwise it succeeds by appending exactly one new row (fourth conjunct);
consequently at most one review per (user, book) pair: pair-uniqueness of
the stored reviews is preserved by every `addReview` (fifth conjunct). -/
theorem C7_review_requires_delivered_order_upsert :
    (∀ db u b,
      truthyId b.bookId = true →
      truthyQ b.rating = true →
      ¬ (jsParseInt (b.rating.getD 0) < 1 ∨ jsParseInt (b.rating.getD 0) > 5) →
      db.orders.find? (fun o =>
        o.user == u.id && o.book == b.bookId.getD 0 && o.orderStatus == .delivered) = none →
      addReview db u b =
        (.err 403 ("You must order and receive this book before reviewing it. Only delivered orders can be reviewed."),
          db)) ∧
    (∀ db u b order r0,
      truthyId b.bookId = true →
      truthyQ b.rating = true →
      ¬ (jsParseInt (b.rating.getD 0) < 1 ∨ jsParseInt (b.rating.getD 0) > 5) →
      db.orders.find? (fun o =>
        o.user == u.id && o.book == b.bookId.getD 0 && o.orderStatus == .delivered) = some order →
      db.reviews.find? (fun r => r.user == u.id && r.book == b.bookId.getD 0) = some r0 →
      addReview db u b =
        (.ok 200 ("Review updated successfully"),
          { db with
            reviews := updateFirstBy (fun r => r.user == u.id && r.book == b.bookId.getD 0)
              (fun r => { r with
                rating := jsParseInt (b.rating.getD 0)
                comment := jsCommentOf b.comment }) db.reviews })) ∧
    (∀ db u b, (addReview db u b).1 = Res.ok 200 ("Review updated successfully") →
      (addReview db u b).2.reviews.length = db.reviews.length) ∧
    (∀ db u b order,
      truthyId b.bookId = true →
      truthyQ b.rating = true →
      ¬ (jsParseInt (b.rating.getD 0) < 1 ∨ jsParseInt (b.rating.getD 0) > 5) →
      db.orders.find? (fun o =>
        o.user == u.id && o.book == b.bookId.getD 0 && o.orderStatus == .delivered) = some order →
      db.reviews.find? (fun r => r.user == u.id && r.book == b.bookId.getD 0) = none →
      addReview db u b =
        (.ok 201 ("Review added successfully"),
          { db with
            reviews := db.reviews ++
              [{ id := db.nextId
                 user := u.id
                 book := b.bookId.getD 0
                 order := order.id
                 rating := jsParseInt (b.rating.getD 0)
                 comment := jsCommentOf b.comment }]
            nextId := db.nextId + 1 })) ∧
    (∀ db u b, ((db.reviews.map fun r => (r.user, r.book)).Nodup) →
      (((addReview db u b).2.reviews.map fun r => (r.user, r.book)).Nodup)) := by
  refine ⟨?_, ?_, ?_, ?_, ?_⟩
  · exact fun db u b h1 h2 h3 h4 => addReview_no_delivered_order db u b h1 h2 h3 h4
  · exact fun db u b order r0 h1 h2 h3 h4 h5 => addReview_update db u b order r0 h1 h2 h3 h4 h5
  · intro db u b hok
    rcases addReview_reviews_cases db u b with ⟨h1, hc⟩ | ⟨_, _, hc⟩ | ⟨_, _, h1, oid, hc⟩
    · rw [hc]
    · rw [hc, length_updateFirstBy]
    · rw [hok] at h1
      exact absurd h1 (by decide)
  · exact fun db u b order h1 h2 h3 h4 h5 => addReview_insert db u b order h1 h2 h3 h4 h5
  · exact fun db u b hnd => addReview_key_nodup_preserved db u b hnd

/-- Witness for C7: the buyer of a merely pending order is rejected; after
delivery a first review (rating 5) is appended; a second review against the
stored (user, book) review overwrites it in place, keeping one row. -/
theorem C7_review_requires_delivered_order_upsert_witness :
    addReview (wDB [wOrder]) wBuyer (wReviewBody 5) =
      (.err 403 ("You must order and receive this book before reviewing it. Only delivered orders can be reviewed."),
        wDB [wOrder]) ∧
    addReview (wDB [wOrderDelivered]) wBuyer (wReviewBody 5) =
      (.ok 201 ("Review added successfully"),
        { wDB [wOrderDelivered] with
          reviews := [{ id := 100, user := 7, book := 5, order := 1, rating := 5, comment := "" }]
          nextId := 101 }) ∧
    addReview wDBr wBuyer (wReviewBody 5) =
      (.ok 200 ("Review updated successfully"),
        { wDBr with reviews := [{ wReview with rating := 5, comment := "" }] }) ∧
    (addReview wDBr wBuyer (wReviewBody 5)).2.reviews.length = wDBr.reviews.length := by
  refine ⟨?_, ?_, ?_, ?_⟩
  · exact C7_review_requires_delivered_order_upsert.1 (wDB [wOrder]) wBuyer
      (wReviewBody 5) (by decide) (by decide) (by decide) (by decide)
  · exact C7_review_requires_delivered_order_upsert.2.2.2.1 (wDB [wOrderDelivered])
      wBuyer (wReviewBody 5) wOrderDelivered (by decide) (by decide) (by decide)
      (by decide) (by decide)
  · exact C7_review_requires_delivered_order_upsert.2.1 wDBr wBuyer (wReviewBody 5)
      wOrderDelivered wReview (by decide) (by decide) (by decide) (by decide) (by decide)
  · exact C7_review_requires_delivered_order_upsert.2.2.1 wDBr wBuyer (wReviewBody 5)
      (by decide)

/-- C8 counterexample: the non-integer rating 9/2 = 4.5 (which is also not
rejected as out of range or non-numeric) is accepted by `addReview` — the
source applies `parseInt` with a 1..5 range check but no integer check — and
the stored review carries the truncated rating 4. -/
theorem C8_noninteger_rating_accepted :
    (addReview (wDB [wOrderDelivered]) wBuyer (wReviewBody (mkRat 9 2))).1 =
      Res.ok 201 ("Review added successfully") ∧
    ((addReview (wDB [wOrderDelivered]) wBuyer (wReviewBody (mkRat 9 2))).2.reviews.map
      Review.rating) = [4] := by
  decide

/-- C8 as amended: the rating is truncated toward zero (`parseInt`); a
request whose truncated rating falls outside 1..5 is rejected with the
rating validation error and writes nothing (first conjunct), and every
stored review carries an integer rating in 1..5 — an invariant preserved by
every `addReview` (second conjunct; ratings are integers by construction,
`Review.rating : Int`). -/
theorem C8_rating_truncated_into_range :
    (∀ db u b,
      truthyId b.bookId = true →
      truthyQ b.rating = true →
      (jsParseInt (b.rating.getD 0) < 1 ∨ jsParseInt (b.rating.getD 0) > 5) →
      addReview db u b = (.err 400 ("Rating must be a number between 1 and 5"), db)) ∧
    (∀ db u b, (∀ r ∈ db.reviews, 1 ≤ r.rating ∧ r.rating ≤ 5) →
      ∀ r ∈ (addReview db u b).2.reviews, 1 ≤ r.rating ∧ r.rating ≤ 5) := by
  constructor
  · exact fun db u b h1 h2 h3 => addReview_rating_out_of_range db u b h1 h2 h3
  · exact fun db u b hdb => addReview_rating_range_invariant db u b hdb

/-- Witness for C8: rating 7 is rejected with the range error and an
unchanged store, and the store created by an accepted review satisfies the
1..5 invariant. -/
theorem C8_rating_truncated_into_range_witness :
    addReview (wDB [wOrderDelivered]) wBuyer (wReviewBody 7) =
      (.err 400 ("Rating must be a number between 1 and 5"), wDB [wOrderDelivered]) ∧
    (∀ r ∈ (addReview (wDB [wOrderDelivered]) wBuyer (wReviewBody 5)).2.reviews,
      1 ≤ r.rating ∧ r.rating ≤ 5) := by
  constructor
  · exact C8_rating_truncated_into_range.1 (wDB [wOrderDelivered]) wBuyer
      (wReviewBody 7) (by decide) (by decide) (by decide)
  · exact C8_rating_truncated_into_range.2 (wDB [wOrderDelivered]) wBuyer
      (wReviewBody 5) (by decide)

/-! `deleteBook` analysis. -/

theorem deleteBook_found (db : DB) (bid : Nat) (book : Book)
    (h : db.books.find? (fun bk => bk.id == bid) = some book) :
    deleteBook db bid =
      (.ok 200 ("Book and all related data deleted successfully"),
        { db with
          books := deleteFirstBy (fun bk => bk.id == bid) db.books
          orders := db.orders.filter (fun o => o.book != bid)
          wishlists := db.wishlists.filter (fun w => w.book != bid)
          reviews := db.reviews.filter (fun r => r.book != bid) }) := by
  unfold deleteBook
  rw [h]

theorem deleteBook_not_found (db : DB) (bid : Nat)
    (h : db.books.find? (fun bk => bk.id == bid) = none) :
    deleteBook db bid = (.err 404 ("Book not found"), db) := by
  unfold deleteBook
  rw [h]

/-- C9: after a successful `deleteBook`, no order, no wishlist entry and no
review referencing the deleted book id remains in the store — the cascade
is a hard delete, leaving no orphaned references. -/
theorem C9_delete_book_cascade :
    ∀ db bid, (deleteBook db bid).1.isOk = true →
      (∀ o ∈ (deleteBook db bid).2.orders, o.book ≠ bid) ∧
      (∀ w ∈ (deleteBook db bid).2.wishlists, w.book ≠ bid) ∧
      (∀ r ∈ (deleteBook db bid).2.reviews, r.book ≠ bid) := by
  intro db bid hok
  cases hfind : db.books.find? (fun bk => bk.id == bid) with
  | none =>
    rw [deleteBook_not_found db bid hfind] at hok
    simp [Res.isOk] at hok
  | some book =>
    rw [deleteBook_found db bid book hfind]
    refine ⟨?_, ?_, ?_⟩
    · exact fun o ho => by simpa using (List.mem_filter.mp ho).2
    · exact fun w hw => by simpa using (List.mem_filter.mp hw).2
    · exact fun r hr => by simpa using (List.mem_filter.mp hr).2

/-- Witness for C9: deleting book 5 from a store holding an order, a
wishlist entry and a review for it leaves no reference to book 5. -/
theorem C9_delete_book_cascade_witness :
    (∀ o ∈ (deleteBook wDBc 5).2.orders, o.book ≠ 5) ∧
    (∀ w ∈ (deleteBook wDBc 5).2.wishlists, w.book ≠ 5) ∧
    (∀ r ∈ (deleteBook wDBc 5).2.reviews, r.book ≠ 5) := by
  exact C9_delete_book_cascade wDBc 5 (by decide)

/-- C10: the combined state `orderStatus = cancelled ∧ paymentStatus = paid`
is reachable, both by cancelling a pending unpaid order and then paying it
(`createPayment` never inspects `orderStatus`), and by marking a pending
order paid and then cancelling it (`cancelOrder` never inspects
`paymentStatus`): both two-step runs succeed and end with the single order
cancelled and paid. -/
theorem C10_cancelled_paid_reachable :
    (cancelOrder (wDB [wOrder]) wBuyer 1).1 =
      Res.ok 200 ("Order cancelled successfully") ∧
    (createPayment (cancelOrder (wDB [wOrder]) wBuyer 1).2 wBuyer
        (wPayBody 1 ("TP") 10)).1 = Res.ok 201 ("Payment created successfully") ∧
    ((createPayment (cancelOrder (wDB [wOrder]) wBuyer 1).2 wBuyer
        (wPayBody 1 ("TP") 10)).2.orders.map
      fun o => (o.orderStatus, o.paymentStatus)) = [(.cancelled, .paid)] ∧
    (updatePaymentStatus (wDB [wOrder]) wBuyer 1).1 =
      Res.ok 200 ("Payment status updated successfully") ∧
    (cancelOrder (updatePaymentStatus (wDB [wOrder]) wBuyer 1).2 wBuyer 1).1 =
      Res.ok 200 ("Order cancelled successfully") ∧
    ((cancelOrder (updatePaymentStatus (wDB [wOrder]) wBuyer 1).2 wBuyer 1).2.orders.map
      fun o => (o.orderStatus, o.paymentStatus)) = [(.cancelled, .paid)] := by
  decide

end BookCourier
